import Mathlib

/-!
Verification of the client-side interaction layer of the Elite Install
marketing site.  The central component is the accessible mobile navigation
overlay (module `mobileNav` of the v6.0 revision), modelled here as a pure
state-transition system; the other revisions of the same component
(v1.0 "Professional Edition", the v1.0 "Main JavaScript File" toggle
handler) and the two external collaborators with a contract (fragment
loader, reveal-on-scroll) are embedded alongside it.
-/

namespace EliteInstall

/-- Where keyboard focus currently rests, relative to the navigation
component: on the trigger button, on the i-th focusable element inside the
panel (0-indexed in document order), or on some unrelated element. -/
inductive FocusTarget where
  | trigger
  | panelItem (i : Nat)
  | elsewhere
  deriving DecidableEq, Repr

/-- The observable DOM-facing state of the v6.0 `mobileNav` component:
its `isOpen` field, the `mobile-nav-open` class on `document.body`, the
`aria-expanded` attribute of the toggle button, the `aria-hidden`
attribute of the `#nav-links` container, and the focused element. -/
structure NavState where
  isOpen : Bool
  bodyMobileNavOpen : Bool
  ariaExpanded : String
  ariaHidden : String
  focused : FocusTarget
  deriving DecidableEq, Repr

/-- An action a handler hands to `requestAnimationFrame` instead of
performing synchronously.  The v6.0 `openMenu` defers exactly one such
action: focusing the first focusable element. -/
inductive DeferredAction where
  | focusFirst
  deriving DecidableEq, Repr

/-- The state `mobileNav.setupAccessibility` leaves behind, with the initial field values:
`isOpen = false`, no body class, `aria-expanded="false"`,
`aria-hidden="true"`; focus starts on some unrelated page element. -/
def initState : NavState :=
  { isOpen := false
    bodyMobileNavOpen := false
    ariaExpanded := "false"
    ariaHidden := "true"
    focused := FocusTarget.elsewhere }

/-- v6.0 `mobileNav.openMenu` (part_001 lines 202-215): sets `isOpen`,
adds the body class, writes both aria attributes, and schedules the focus
move to the first focusable element on the next animation frame.  The
synchronous part leaves `focused` untouched. -/
def openMenu (s : NavState) : NavState × List DeferredAction :=
  ({ s with
      isOpen := true
      bodyMobileNavOpen := true
      ariaExpanded := "true"
      ariaHidden := "false" },
   [DeferredAction.focusFirst])

/-- v6.0 `mobileNav.closeMenu` (part_001 lines 217-225): clears `isOpen`,
removes the body class, writes both aria attributes, and synchronously
returns focus to the toggle button. -/
def closeMenu (s : NavState) : NavState :=
  { s with
      isOpen := false
      bodyMobileNavOpen := false
      ariaExpanded := "false"
      ariaHidden := "true"
      focused := FocusTarget.trigger }

/-- v6.0 `mobileNav.toggleMenu` (part_001 lines 198-200):
`this.isOpen ? this.closeMenu() : this.openMenu()`.  `closeMenu` defers
nothing. -/
def toggleMenu (s : NavState) : NavState × List DeferredAction :=
  if s.isOpen then (closeMenu s, []) else openMenu s

/-- The `requestAnimationFrame` callback scheduled by `openMenu`:
`if (this.firstFocusable) this.firstFocusable.focus()`, where
`firstFocusable` exists exactly when the panel holds `n > 0` focusable
elements. -/
def applyDeferred (n : Nat) (a : DeferredAction) (s : NavState) : NavState :=
  match a with
  | DeferredAction.focusFirst =>
      if 0 < n then { s with focused := FocusTarget.panelItem 0 } else s

/-- Run a handler synchronous part and then its animation-frame
callbacks, in order, before the next event is processed. -/
def flush (n : Nat) (p : NavState × List DeferredAction) : NavState :=
  p.2.foldl (fun st a => applyDeferred n a st) p.1

/-- The keys the v6.0 keydown dispatch distinguishes. -/
inductive Key where
  | escapeKey
  | tabKey
  | otherKey
  deriving DecidableEq, Repr

/-- A keydown event: the key and whether Shift is held. -/
structure KeyEvent where
  key : Key
  shiftKey : Bool
  deriving DecidableEq, Repr

/-- v6.0 `mobileNav.handleTabNavigation` (part_001 lines 240-254), for a
panel with `n` focusable elements (`firstFocusable` = item 0,
`lastFocusable` = item `n - 1`).  Returns the new state together with
whether `event.preventDefault()` was called. -/
def handleTabNavigation (n : Nat) (ev : KeyEvent) (s : NavState) :
    NavState × Bool :=
  if ev.shiftKey then
    if s.focused = FocusTarget.panelItem 0 then
      ({ s with focused := FocusTarget.panelItem (n - 1) }, true)
    else (s, false)
  else
    if s.focused = FocusTarget.panelItem (n - 1) then
      ({ s with focused := FocusTarget.panelItem 0 }, true)
    else (s, false)

/-- v6.0 `mobileNav.handleKeydown` (part_001 lines 227-238): ignores all
keys while closed; `Escape` closes, `Tab` is routed to
`handleTabNavigation`, everything else falls through. -/
def handleKeydown (n : Nat) (ev : KeyEvent) (s : NavState) :
    NavState × Bool :=
  if s.isOpen then
    match ev.key with
    | Key.escapeKey => (closeMenu s, false)
    | Key.tabKey => handleTabNavigation n ev s
    | Key.otherKey => (s, false)
  else (s, false)

/-- Which part of the document a click event target falls in, as tested
by `navContainer.contains(e.target)` / `toggleButton.contains(e.target)`. -/
inductive ClickTarget where
  | insideNav
  | insideToggle
  | outside
  deriving DecidableEq, Repr

/-- The v6.0 document-level click listener (part_001 lines 172-179):
closes the menu when it is open and the click landed outside both the nav
container and the toggle button. -/
def handleDocumentClick (t : ClickTarget) (s : NavState) : NavState :=
  if s.isOpen ∧ t = ClickTarget.outside then closeMenu s else s

/-- v6.0 `mobileNav.handleResize` (part_001 lines 260-265): force-close
when the viewport is wider than the 768px breakpoint while open. -/
def handleResize (w : Nat) (s : NavState) : NavState :=
  if 768 < w ∧ s.isOpen then closeMenu s else s

/-- The discrete events the v6.0 component reacts to: an activation of the
trigger (its click listener, then the document click listener, whose
`contains` test sees the target inside the toggle), a document keydown, a
document click elsewhere, a click on a focusable nav link (its own
listener, then the document listener with the target inside the nav), and
a window resize to width `w`. -/
inductive NavEvent where
  | activate
  | keydown (ev : KeyEvent)
  | docClick (t : ClickTarget)
  | linkClick
  | resize (w : Nat)
  deriving DecidableEq, Repr

/-- One run-to-completion step of the v6.0 component: all listeners for
the event fire in registration order, then any animation-frame callbacks
they scheduled run before the next event. -/
def stepEvent (n : Nat) (e : NavEvent) (s : NavState) : NavState :=
  match e with
  | NavEvent.activate =>
      flush n
        (handleDocumentClick ClickTarget.insideToggle (toggleMenu s).1,
         (toggleMenu s).2)
  | NavEvent.keydown ev => (handleKeydown n ev s).1
  | NavEvent.docClick t => handleDocumentClick t s
  | NavEvent.linkClick =>
      handleDocumentClick ClickTarget.insideNav
        (if s.isOpen then closeMenu s else s)
  | NavEvent.resize w => handleResize w s

/-- Fold a sequence of events over the component, left to right. -/
def runEvents (n : Nat) (es : List NavEvent) (s : NavState) : NavState :=
  es.foldl (fun st e => stepEvent n e st) s

/-! ## The v1.0 "Professional Edition" revision (part_005) -/

/-- Observable state of the part_005 `mobileNav`: this revision keeps no
`isOpen` field — the open state is the `mobile-nav-open` class on the
body — and additionally locks body scroll via `style.overflow`. -/
structure Nav5State where
  bodyMobileNavOpen : Bool
  ariaExpanded : String
  bodyOverflowHidden : Bool
  focused : FocusTarget
  deriving DecidableEq, Repr

/-- part_005 `mobileNav.toggleMenu` (lines 66-76): toggles the body class
and reads the return value of the toggle, mirrors it into `aria-expanded`
(`String(isExpanded)`), sets `body.style.overflow`, and — when opening —
calls `this.firstFocusable.focus()` synchronously inside the handler.
The embedding assumes the panel holds at least one focusable element
(`firstFocusable` = item 0), as the code itself does.  Nothing is handed
to `requestAnimationFrame`: the deferred-action list is empty. -/
def toggleMenu5 (s : Nav5State) : Nav5State × List DeferredAction :=
  let isExpanded := !s.bodyMobileNavOpen
  ({ bodyMobileNavOpen := isExpanded
     ariaExpanded := if isExpanded then "true" else "false"
     bodyOverflowHidden := isExpanded
     focused := if isExpanded then FocusTarget.panelItem 0 else s.focused },
   [])

/-! ## The v1.0 "Main JavaScript File" revision (part_004) -/

/-- Observable state of the part_004 toggle handler: the body class, the
`aria-expanded` attribute of the toggle button, and the scroll lock.  This
revision keeps no JavaScript state at all. -/
structure Dom4 where
  bodyMobileNavOpen : Bool
  ariaExpanded : String
  bodyOverflowHidden : Bool
  deriving DecidableEq, Repr

/-- The part_004 `mobileMenuToggle` click handler (lines 24-40): toggles
the body class, then *reads the `aria-expanded` attribute back from the
DOM* (`getAttribute` of `aria-expanded` compared against the text true) and writes its negation
(`String(!isExpanded)`); the scroll lock follows the body class. -/
def mobileMenuToggleClick (d : Dom4) : Dom4 :=
  let bodyOpen := !d.bodyMobileNavOpen
  let isExpanded := d.ariaExpanded = "true"
  { bodyMobileNavOpen := bodyOpen
    ariaExpanded := if !isExpanded then "true" else "false"
    bodyOverflowHidden := bodyOpen }

/-! ## Initialization of the v6.0 component (part_001 lines 144-166,
matching src/script.js lines 43-53) -/

/-- The `#nav-links` container as found by `querySelector`, carrying the
number of focusable elements its subtree yields to `querySelectorAll`. -/
structure PanelElem where
  focusableCount : Nat
  deriving DecidableEq, Repr

/-- The component object after `init`: whether `bindEvents` ran (listeners
attached), the cached focusable count, and the DOM state. -/
structure NavComponent where
  bound : Bool
  n : Nat
  state : NavState
  deriving DecidableEq, Repr

/-- DOM attributes of the toggle and panel before `setupAccessibility`
has written anything: the markup values, untouched. -/
def rawState : NavState :=
  { isOpen := false
    bodyMobileNavOpen := false
    ariaExpanded := ""
    ariaHidden := ""
    focused := FocusTarget.elsewhere }

/-- The component `init` leaves behind when a required element is absent:
no listeners bound, DOM untouched. -/
def inertComponent : NavComponent :=
  { bound := false, n := 0, state := rawState }

/-- Lookup `navContainer.querySelectorAll(...)`: dereferencing a null container
would raise a `TypeError`; on a present container it returns the
focusable list. -/
def queryFocusables : Option PanelElem → Except String Nat
  | Option.none => Except.error "TypeError: querySelectorAll of null"
  | Option.some p => Except.ok p.focusableCount

/-- v6.0 `mobileNav.init` (part_001 lines 144-166): looks up the toggle
button and the `#nav-links` container; if either is absent it warns and
returns without binding any listener, leaving the component inert.
Otherwise it caches the focusable elements, binds the event listeners and
runs `setupAccessibility` (which produces `initState`). -/
def navInit (toggleEl : Option Unit) (navEl : Option PanelElem) :
    Except String NavComponent :=
  if toggleEl.isNone || navEl.isNone then Except.ok inertComponent
  else
    match queryFocusables navEl with
    | Except.error e => Except.error e
    | Except.ok n => Except.ok { bound := true, n := n, state := initState }

/-- Event dispatch on the initialized component: a listener only runs if
`bindEvents` attached it, so an inert component ignores every event. -/
def dispatchC (c : NavComponent) (e : NavEvent) : NavComponent :=
  if c.bound then { c with state := stepEvent c.n e c.state } else c

/-- v6.0 `App.initComponents` as far as the navigation component and its
siblings are concerned: `mobileNav.init()` runs, and — provided it did not
throw — the sibling modules are initialized too (the returned flag). -/
def initComponents (toggleEl : Option Unit) (navEl : Option PanelElem) :
    Except String (NavComponent × Bool) :=
  match navInit toggleEl navEl with
  | Except.error e => Except.error e
  | Except.ok c => Except.ok (c, true)

/-! ## Fragment loader (src/script.js v5.1, lines 233-245) -/

/-- The outcome of the `fetch` call, as the loader observes it: a response
with its `ok` flag and body text, or a network-level rejection. -/
inductive FetchResult where
  | response (ok : Bool) (text : String)
  | networkError (msg : String)
  deriving DecidableEq, Repr

/-- What `fetchAndInject` did to the document: replaced the placeholder
with the retrieved markup (`placeholder.outerHTML = html`), wrote the
static fallback into it (`placeholder.innerHTML = ...`), or returned early
because the placeholder id resolved to no element. -/
inductive InjectOutcome where
  | spliced (html : String)
  | fallbackShown (url : String)
  | noPlaceholder
  deriving DecidableEq, Repr

/-- The body of the `try` block of `fetchAndInject`: await the fetch
(a network rejection propagates as an exception), throw
`Failed to load url` when `response.ok` is false, otherwise yield the
response text. -/
def fetchText (url : String) (fr : FetchResult) : Except String String :=
  match fr with
  | FetchResult.networkError m => Except.error m
  | FetchResult.response ok text =>
      if ok then Except.ok text
      else Except.error ("Failed to load " ++ url)

/-- Function `componentLoader.fetchAndInject` of src/script.js (v5.1 revision,
lines 233-245): early-return when the placeholder is absent; otherwise
splice the fetched text over the placeholder, and on any exception from
the `try` block log it and substitute the static fallback.  The `Except`
layer records whether the function itself throws to its caller. -/
def fetchAndInject (url : String) (placeholder : Option Unit)
    (fr : FetchResult) : Except String InjectOutcome :=
  match placeholder with
  | Option.none => Except.ok InjectOutcome.noPlaceholder
  | Option.some _ =>
      match fetchText url fr with
      | Except.ok html => Except.ok (InjectOutcome.spliced html)
      | Except.error _ => Except.ok (InjectOutcome.fallbackShown url)

/-- Whether the loader call returned normally to its caller rather than
propagating an exception. -/
def returnsNormally (r : Except String InjectOutcome) : Bool :=
  match r with
  | Except.ok _ => true
  | Except.error _ => false

/-! ## Reveal-on-scroll collaborator (part_000 `createScrollReveal`,
lines 2-28) -/

/-- An animation target element: its inline `opacity` and `transform`
styles and whether the `visible` class has been added. -/
structure RevealElem where
  opacity : String
  transform : String
  classVisible : Bool
  deriving DecidableEq, Repr

/-- What `createScrollReveal` has done by the time it returns: the element
styles, whether an `IntersectionObserver` was constructed and the targets
observed, and how many transition callbacks (`setTimeout` reveals) are
pending. -/
structure RevealResult where
  elems : List RevealElem
  observerRegistered : Bool
  pendingTransitions : Nat
  deriving DecidableEq, Repr

/-- Mark one element visible the reduced-motion way:
setting the inline opacity style to 1 and the transform style to none — an immediate jump,
no class-based transition. -/
def revealImmediately (e : RevealElem) : RevealElem :=
  { e with opacity := "1", transform := "none" }

/-- part_000 `createScrollReveal` (lines 2-28): when the
`prefers-reduced-motion: reduce` media query matches, every target is made
visible synchronously in the init call and the function returns before
the `IntersectionObserver` is ever constructed; otherwise the observer is
created and all targets observed, with reveals happening only later in
intersection callbacks. -/
def createScrollReveal (reducedMotion : Bool) (els : List RevealElem) :
    RevealResult :=
  if reducedMotion then
    { elems := els.map revealImmediately
      observerRegistered := false
      pendingTransitions := 0 }
  else
    { elems := els
      observerRegistered := true
      pendingTransitions := 0 }

/-! ## Sample states for concrete evaluations -/

/-- A concrete open state of the v6.0 component with focus inside the
panel. -/
def sampleOpen : NavState :=
  { isOpen := true
    bodyMobileNavOpen := true
    ariaExpanded := "true"
    ariaHidden := "false"
    focused := FocusTarget.panelItem 2 }

/-- A concrete closed state of the part_005 component with focus on an
unrelated element. -/
def closed5 : Nav5State :=
  { bodyMobileNavOpen := false
    ariaExpanded := "false"
    bodyOverflowHidden := false
    focused := FocusTarget.elsewhere }

/-- A concrete hidden animation target. -/
def sampleHidden : RevealElem :=
  { opacity := "0", transform := "translateY(20px)", classVisible := false }

/-! ## Helper lemmas -/

/-- The animation-frame focus callback never touches `isOpen`. -/
theorem applyDeferred_isOpen (n : Nat) (a : DeferredAction) (s : NavState) :
    (applyDeferred n a s).isOpen = s.isOpen := by
  cases a
  by_cases hn : 0 < n <;> simp [applyDeferred, hn]

/-- The animation-frame focus callback never touches `aria-expanded`. -/
theorem applyDeferred_ariaExpanded (n : Nat) (a : DeferredAction)
    (s : NavState) : (applyDeferred n a s).ariaExpanded = s.ariaExpanded := by
  cases a
  by_cases hn : 0 < n <;> simp [applyDeferred, hn]

/-- A click whose target lies inside the toggle button never closes the
menu: the `contains` guard of the document listener rejects it. -/
theorem handleDocumentClick_insideToggle (s : NavState) :
    handleDocumentClick ClickTarget.insideToggle s = s := by
  simp [handleDocumentClick]

/-- A click whose target lies inside the nav container never triggers the
document-level close. -/
theorem handleDocumentClick_insideNav (s : NavState) :
    handleDocumentClick ClickTarget.insideNav s = s := by
  simp [handleDocumentClick]

/-- Activating the trigger flips `isOpen`, whatever else it does. -/
theorem stepEvent_activate_isOpen (n : Nat) (s : NavState) :
    (stepEvent n NavEvent.activate s).isOpen = !s.isOpen := by
  cases hs : s.isOpen
  · simp [stepEvent, toggleMenu, hs, flush, openMenu,
      handleDocumentClick_insideToggle, applyDeferred_isOpen]
  · simp [stepEvent, toggleMenu, hs, flush, closeMenu,
      handleDocumentClick_insideToggle]

/-- Parity of a pure activate sequence: each activation flips `isOpen`,
so a sequence of activations from any start state ends open exactly when
it would flip an odd number of times. -/
theorem runEvents_activates_isOpen (n : Nat) :
    ∀ (es : List NavEvent) (s : NavState),
      (∀ e ∈ es, e = NavEvent.activate) →
      (runEvents n es s).isOpen =
        if es.length % 2 = 1 then !s.isOpen else s.isOpen := by
  intro es
  induction es with
  | nil =>
      intro s _
      simp [runEvents]
  | cons a es ih =>
      intro s h
      have ha : a = NavEvent.activate := h a (List.mem_cons_self a es)
      have hrest : ∀ e ∈ es, e = NavEvent.activate := fun e he =>
        h e (List.mem_cons_of_mem a he)
      subst ha
      have hstep : runEvents n (NavEvent.activate :: es) s =
          runEvents n es (stepEvent n NavEvent.activate s) := rfl
      rw [hstep, ih _ hrest, stepEvent_activate_isOpen]
      have hlen : (NavEvent.activate :: es).length = es.length + 1 := rfl
      rw [hlen]
      rcases Nat.mod_two_eq_zero_or_one es.length with h0 | h1
      · rw [if_neg (by omega : ¬es.length % 2 = 1),
          if_pos (by omega : (es.length + 1) % 2 = 1)]
      · rw [if_pos h1, if_neg (by omega : ¬(es.length + 1) % 2 = 1),
          Bool.not_not]

/-! ## Claim theorems -/

/-- Claim C1: while the panel is `Open`, a Tab keydown with focus on the
last focusable element redirects focus to the first and suppresses the
default; Shift+Tab with focus on the first redirects to the last and
suppresses the default; Tab or Shift+Tab with focus on any strictly
intermediate element changes nothing and leaves the default to the
browser. -/
theorem tab_focus_containment (n : Nat) (s : NavState)
    (hopen : s.isOpen = true) (hn : 0 < n) :
    (s.focused = FocusTarget.panelItem (n - 1) →
      handleKeydown n ⟨Key.tabKey, false⟩ s =
        ({ s with focused := FocusTarget.panelItem 0 }, true)) ∧
    (s.focused = FocusTarget.panelItem 0 →
      handleKeydown n ⟨Key.tabKey, true⟩ s =
        ({ s with focused := FocusTarget.panelItem (n - 1) }, true)) ∧
    (∀ i : Nat, 0 < i → i < n - 1 → s.focused = FocusTarget.panelItem i →
      handleKeydown n ⟨Key.tabKey, false⟩ s = (s, false) ∧
      handleKeydown n ⟨Key.tabKey, true⟩ s = (s, false)) := by
  have _ := hn
  refine ⟨?_, ?_, ?_⟩
  · intro hf
    simp [handleKeydown, hopen, handleTabNavigation, hf]
  · intro hf
    simp [handleKeydown, hopen, handleTabNavigation, hf]
  · intro i hi0 hin hf
    have hlast : FocusTarget.panelItem i ≠ FocusTarget.panelItem (n - 1) := by
      simp only [ne_eq, FocusTarget.panelItem.injEq]
      omega
    have hfirst : FocusTarget.panelItem i ≠ FocusTarget.panelItem 0 := by
      simp only [ne_eq, FocusTarget.panelItem.injEq]
      omega
    constructor
    · simp [handleKeydown, hopen, handleTabNavigation, hf, hlast]
    · simp [handleKeydown, hopen, handleTabNavigation, hf, hfirst]

/-- Witness for C1: a panel with three focusable elements, open, focus on
the last element; Tab wraps focus to the first and suppresses default. -/
theorem tab_focus_containment_witness :
    (({ isOpen := true, bodyMobileNavOpen := true, ariaExpanded := "true",
        ariaHidden := "false",
        focused := FocusTarget.panelItem 2 } : NavState).isOpen = true
      ∧ 0 < 3) ∧
    handleKeydown 3 ⟨Key.tabKey, false⟩
      { isOpen := true, bodyMobileNavOpen := true, ariaExpanded := "true",
        ariaHidden := "false", focused := FocusTarget.panelItem 2 } =
      ({ isOpen := true, bodyMobileNavOpen := true, ariaExpanded := "true",
         ariaHidden := "false", focused := FocusTarget.panelItem 0 }, true) :=
  ⟨⟨rfl, by decide⟩,
    (tab_focus_containment 3
      { isOpen := true, bodyMobileNavOpen := true, ariaExpanded := "true",
        ariaHidden := "false", focused := FocusTarget.panelItem 2 }
      rfl (by decide)).1 rfl⟩

/-- Claim C2: from the initial `Closed` state, a sequence consisting only
of trigger activations leaves the panel open exactly when the sequence
length is odd; and an Escape keydown or a click outside panel and trigger
forces `isOpen = false` from any state whatsoever. -/
theorem activate_parity_and_forced_close (n : Nat) (es : List NavEvent)
    (s : NavState) (hall : ∀ e ∈ es, e = NavEvent.activate) :
    ((runEvents n es initState).isOpen = true ↔ es.length % 2 = 1) ∧
    (stepEvent n (NavEvent.keydown ⟨Key.escapeKey, false⟩) s).isOpen = false ∧
    (stepEvent n (NavEvent.docClick ClickTarget.outside) s).isOpen = false := by
  refine ⟨?_, ?_, ?_⟩
  · rw [runEvents_activates_isOpen n es initState hall]
    rcases Nat.mod_two_eq_zero_or_one es.length with h0 | h1
    · have : ¬(es.length % 2 = 1) := by omega
      simp [this, initState]
    · simp [h1, initState]
  · cases hs : s.isOpen <;>
      simp [stepEvent, handleKeydown, hs, closeMenu]
  · cases hs : s.isOpen <;>
      simp [stepEvent, handleDocumentClick, hs, closeMenu]

/-- Witness for C2: a single activation of the closed panel opens it
(length 1 is odd), and Escape from that open state closes it. -/
theorem activate_parity_and_forced_close_witness :
    (∀ e ∈ [NavEvent.activate], e = NavEvent.activate) ∧
    ((runEvents 3 [NavEvent.activate] initState).isOpen = true ↔
      [NavEvent.activate].length % 2 = 1) :=
  ⟨by decide,
    (activate_parity_and_forced_close 3 [NavEvent.activate] initState
      (by decide)).1⟩

/-- Tab handling only moves focus: `aria-expanded` and `isOpen` are
untouched. -/
theorem handleTabNavigation_fields (n : Nat) (ev : KeyEvent) (s : NavState) :
    (handleTabNavigation n ev s).1.ariaExpanded = s.ariaExpanded ∧
    (handleTabNavigation n ev s).1.isOpen = s.isOpen := by
  unfold handleTabNavigation
  by_cases hsh : ev.shiftKey
  · by_cases hf : s.focused = FocusTarget.panelItem 0 <;> simp [hsh, hf]
  · by_cases hf : s.focused = FocusTarget.panelItem (n - 1) <;>
      simp [hsh, hf]

/-- Every event of the v6.0 component preserves the coupling between the
`aria-expanded` attribute and `isOpen`: the attribute is rewritten from
`isOpen` whenever `isOpen` changes, and untouched otherwise. -/
theorem stepEvent_ariaExpanded_inv (n : Nat) (e : NavEvent) (s : NavState)
    (h : s.ariaExpanded = if s.isOpen then "true" else "false") :
    (stepEvent n e s).ariaExpanded =
      if (stepEvent n e s).isOpen then "true" else "false" := by
  cases e with
  | activate =>
      cases hs : s.isOpen
      · simp [stepEvent, toggleMenu, hs, flush, openMenu,
          handleDocumentClick_insideToggle, applyDeferred_isOpen,
          applyDeferred_ariaExpanded]
      · simp [stepEvent, toggleMenu, hs, flush, closeMenu,
          handleDocumentClick_insideToggle]
  | keydown ev =>
      cases hs : s.isOpen
      · simpa [stepEvent, handleKeydown, hs] using h
      · cases hk : ev.key
        · simp [stepEvent, handleKeydown, hs, hk, closeMenu]
        · have hh := handleTabNavigation_fields n ev s
          rw [hs] at h
          simp [stepEvent, handleKeydown, hs, hk, hh.1, hh.2, h]
        · simpa [stepEvent, handleKeydown, hs, hk] using h
  | docClick t =>
      by_cases hc : s.isOpen ∧ t = ClickTarget.outside
      · simp [stepEvent, handleDocumentClick, hc, closeMenu]
      · simpa [stepEvent, handleDocumentClick, hc] using h
  | linkClick =>
      cases hs : s.isOpen
      · simpa [stepEvent, hs, handleDocumentClick_insideNav] using h
      · simp [stepEvent, hs, handleDocumentClick_insideNav, closeMenu]
  | resize w =>
      by_cases hc : 768 < w ∧ s.isOpen
      · simp [stepEvent, handleResize, hc, closeMenu]
      · simpa [stepEvent, handleResize, hc] using h

/-- The `aria-expanded`/`isOpen` coupling propagates along any event
sequence. -/
theorem runEvents_ariaExpanded_inv (n : Nat) :
    ∀ (es : List NavEvent) (s : NavState),
      s.ariaExpanded = (if s.isOpen then "true" else "false") →
      (runEvents n es s).ariaExpanded =
        if (runEvents n es s).isOpen then "true" else "false" := by
  intro es
  induction es with
  | nil =>
      intro s h
      simpa [runEvents] using h
  | cons a es ih =>
      intro s h
      have hstep : runEvents n (a :: es) s =
          runEvents n es (stepEvent n a s) := rfl
      rw [hstep]
      exact ih _ (stepEvent_ariaExpanded_inv n a s h)

/-- Counterexample to claim C3: the part_004 toggle handler decides the
next `aria-expanded` value by reading the attribute back from the DOM.
Starting from a document whose body class says Closed but whose attribute
was (independently) set to the text true, one click opens the panel yet
writes `aria-expanded="false"`; from the same body-class state with the
attribute at the text false, the identical operation writes the opposite
value — so the attribute is not a function of the open state. -/
theorem ariaExpanded_pure_counterexample :
    (mobileMenuToggleClick
      { bodyMobileNavOpen := false, ariaExpanded := "true",
        bodyOverflowHidden := false }).bodyMobileNavOpen = true ∧
    (mobileMenuToggleClick
      { bodyMobileNavOpen := false, ariaExpanded := "true",
        bodyOverflowHidden := false }).ariaExpanded = "false" ∧
    (mobileMenuToggleClick
      { bodyMobileNavOpen := false, ariaExpanded := "false",
        bodyOverflowHidden := false }).ariaExpanded = "true" := by
  refine ⟨rfl, by decide, by decide⟩

/-- Claim C3 (amended): in the v6.0 state-tracking component, after any
sequence of operations from the initialized state the `aria-expanded`
attribute of the trigger reads the text true exactly when `isOpen` is
true and the text false exactly when it is false — the attribute is
written only as a function of `isOpen`.  (The part_004 revision instead
reads the attribute back from the DOM to decide its next value, so there
the attribute can contradict the presentation.) -/
theorem ariaExpanded_reflects_isOpen (n : Nat) (es : List NavEvent) :
    (runEvents n es initState).ariaExpanded =
      if (runEvents n es initState).isOpen then "true" else "false" :=
  runEvents_ariaExpanded_inv n es initState rfl

/-- Claim C4: when the trigger or the panel is absent at initialization,
`init` returns normally with an inert component (no listener bound), every
subsequent event — including a click on a trigger present alone — is a
no-op, and the initialization of sibling modules still runs. -/
theorem init_absent_elements_inert (toggleEl : Option Unit)
    (navEl : Option PanelElem)
    (habs : (toggleEl.isNone || navEl.isNone) = true) :
    navInit toggleEl navEl = Except.ok inertComponent ∧
    (∀ e : NavEvent, dispatchC inertComponent e = inertComponent) ∧
    initComponents toggleEl navEl = Except.ok (inertComponent, true) := by
  refine ⟨?_, ?_, ?_⟩
  · simp [navInit, habs]
  · intro e
    simp [dispatchC, inertComponent]
  · simp [initComponents, navInit, habs]

/-- Witness for C4: the trigger is present but the panel is absent; init
yields the inert component and a click on the trigger does nothing. -/
theorem init_absent_elements_inert_witness :
    ((Option.some ()).isNone ||
      (Option.none : Option PanelElem).isNone) = true ∧
    dispatchC inertComponent NavEvent.activate = inertComponent :=
  ⟨rfl,
    (init_absent_elements_inert (Option.some ()) Option.none rfl).2.1
      NavEvent.activate⟩

/-- Claim C5: dispatching any close-triggering event — Escape keydown, a
click outside panel and trigger, a nav-link click, or a resize — while
the panel is already Closed is the identity on the whole state: the
`isOpen` guards in the handlers keep the state, the body class, both aria
attributes and the focused element untouched. -/
theorem close_while_closed_noop (n w : Nat) (s : NavState)
    (hclosed : s.isOpen = false) :
    stepEvent n (NavEvent.keydown ⟨Key.escapeKey, false⟩) s = s ∧
    stepEvent n (NavEvent.docClick ClickTarget.outside) s = s ∧
    stepEvent n NavEvent.linkClick s = s ∧
    stepEvent n (NavEvent.resize w) s = s := by
  refine ⟨?_, ?_, ?_, ?_⟩
  · simp [stepEvent, handleKeydown, hclosed]
  · simp [stepEvent, handleDocumentClick, hclosed]
  · simp [stepEvent, hclosed, handleDocumentClick_insideNav]
  · simp [stepEvent, handleResize, hclosed]

/-- Witness for C5: Escape dispatched to the freshly initialized (closed)
component leaves the state exactly as it was. -/
theorem close_while_closed_noop_witness :
    initState.isOpen = false ∧
    stepEvent 3 (NavEvent.keydown ⟨Key.escapeKey, false⟩) initState =
      initState :=
  ⟨rfl, (close_while_closed_noop 3 1024 initState rfl).1⟩

/-- Counterexample to claim C6: in the part_005 revision, the
Closed-to-Open activation focuses the first focusable element
synchronously inside the handler — when the handler returns, focus has
already moved and nothing was handed to an animation frame — so the focus
move is not deferred to the next paint frame in that cited revision. -/
theorem open_focus_deferred_counterexample :
    (toggleMenu5 closed5).1.bodyMobileNavOpen = true ∧
    (toggleMenu5 closed5).1.focused = FocusTarget.panelItem 0 ∧
    (toggleMenu5 closed5).2 = ([] : List DeferredAction) := by
  refine ⟨rfl, rfl, rfl⟩

/-- Claim C6 (amended): on the Closed-to-Open transition focus moves to
the first focusable element; in the v6.0 revision the move is deferred to
the next animation frame (the handler itself leaves focus where it was
and schedules exactly one frame callback, after which focus rests on the
first element), while the part_005 revision performs the move
synchronously within the activation handler, deferring nothing. -/
theorem open_focus_deferred (n : Nat) (s : NavState) (s5 : Nav5State)
    (hn : 0 < n) (hclosed : s.isOpen = false)
    (hclosed5 : s5.bodyMobileNavOpen = false) :
    ((toggleMenu s).1.focused = s.focused ∧
     (toggleMenu s).2 = [DeferredAction.focusFirst] ∧
     (flush n (toggleMenu s)).focused = FocusTarget.panelItem 0) ∧
    ((toggleMenu5 s5).1.focused = FocusTarget.panelItem 0 ∧
     (toggleMenu5 s5).2 = ([] : List DeferredAction)) := by
  refine ⟨⟨?_, ?_, ?_⟩, ?_, ?_⟩
  · simp [toggleMenu, hclosed, openMenu]
  · simp [toggleMenu, hclosed, openMenu]
  · simp [toggleMenu, hclosed, openMenu, flush, applyDeferred, hn]
  · simp [toggleMenu5, hclosed5]
  · simp [toggleMenu5]

/-- Witness for C6 (amended): three focusable elements, both components
closed; after the v6.0 handler plus its animation frame, focus is on the
first element. -/
theorem open_focus_deferred_witness :
    (0 < 3 ∧ initState.isOpen = false ∧
      closed5.bodyMobileNavOpen = false) ∧
    (flush 3 (toggleMenu initState)).focused = FocusTarget.panelItem 0 :=
  ⟨⟨by decide, rfl, rfl⟩,
    (open_focus_deferred 3 initState closed5 (by decide) rfl rfl).1.2.2⟩

/-- Claim C7: a resize event that reports a viewport wider than the 768px
breakpoint closes an open panel with exactly the effects of a normal
close, and after any such resize event the panel is never open. -/
theorem resize_past_breakpoint_closes (n w : Nat) (s : NavState)
    (hw : 768 < w) :
    (s.isOpen = true → stepEvent n (NavEvent.resize w) s = closeMenu s) ∧
    (stepEvent n (NavEvent.resize w) s).isOpen = false := by
  constructor
  · intro ho
    simp [stepEvent, handleResize, hw, ho]
  · cases hs : s.isOpen <;>
      simp [stepEvent, handleResize, hw, hs, closeMenu]

/-- Witness for C7: resizing the open sample state to 1024px wide leaves
the panel closed. -/
theorem resize_past_breakpoint_closes_witness :
    (768 < 1024 ∧ sampleOpen.isOpen = true) ∧
    stepEvent 3 (NavEvent.resize 1024) sampleOpen = closeMenu sampleOpen :=
  ⟨⟨by decide, rfl⟩,
    (resize_past_breakpoint_closes 3 1024 sampleOpen (by decide)).1 rfl⟩

/-- Claim C8: the fragment loader never throws to its caller, and for a
present placeholder it either splices the retrieved text over the
placeholder (when the fetch resolved with an ok response) or writes the
static fallback into it (on a non-ok response or a network rejection). -/
theorem fetch_inject_total (url : String) (placeholder : Option Unit)
    (fr : FetchResult) :
    returnsNormally (fetchAndInject url placeholder fr) = true ∧
    (∀ t, fr = FetchResult.response true t →
      fetchAndInject url (Option.some ()) fr =
        Except.ok (InjectOutcome.spliced t)) ∧
    (∀ t, fr = FetchResult.response false t →
      fetchAndInject url (Option.some ()) fr =
        Except.ok (InjectOutcome.fallbackShown url)) ∧
    (∀ m, fr = FetchResult.networkError m →
      fetchAndInject url (Option.some ()) fr =
        Except.ok (InjectOutcome.fallbackShown url)) := by
  refine ⟨?_, ?_, ?_, ?_⟩
  · cases placeholder with
    | none => rfl
    | some u =>
        cases fr with
        | response ok t =>
            cases ok <;>
              simp [fetchAndInject, fetchText, returnsNormally]
        | networkError m =>
            simp [fetchAndInject, fetchText, returnsNormally]
  · intro t ht
    subst ht
    simp [fetchAndInject, fetchText]
  · intro t ht
    subst ht
    simp [fetchAndInject, fetchText]
  · intro m hm
    subst hm
    simp [fetchAndInject, fetchText]

/-- Witness for C8: a 404-style non-ok response makes the loader return
normally with the fallback in the placeholder. -/
theorem fetch_inject_total_witness :
    (FetchResult.response false "oops" : FetchResult) =
      FetchResult.response false "oops" ∧
    fetchAndInject "header.html" (Option.some ())
        (FetchResult.response false "oops") =
      Except.ok (InjectOutcome.fallbackShown "header.html") :=
  ⟨rfl,
    (fetch_inject_total "header.html" (Option.some ())
      (FetchResult.response false "oops")).2.2.1 "oops" rfl⟩

/-- Claim C9: with the reduced-motion signal true at init, the
reveal-on-scroll collaborator registers no observer, schedules no
transition callback, keeps every target, and has already set every target
visible (opacity 1, transform none) when the init call returns. -/
theorem reduced_motion_reveals_all (els : List RevealElem) :
    (createScrollReveal true els).observerRegistered = false ∧
    (createScrollReveal true els).pendingTransitions = 0 ∧
    (createScrollReveal true els).elems.length = els.length ∧
    (∀ e ∈ (createScrollReveal true els).elems,
      e.opacity = "1" ∧ e.transform = "none") := by
  refine ⟨rfl, rfl, ?_, ?_⟩
  · simp [createScrollReveal]
  · intro e he
    simp only [createScrollReveal, if_pos, List.mem_map] at he
    obtain ⟨a, _, rfl⟩ := he
    simp [revealImmediately]

/-- Witness for C9: one hidden target becomes visible with no observer
registered. -/
theorem reduced_motion_reveals_all_witness :
    revealImmediately sampleHidden ∈
      (createScrollReveal true [sampleHidden]).elems ∧
    ((revealImmediately sampleHidden).opacity = "1" ∧
      (revealImmediately sampleHidden).transform = "none") :=
  ⟨by decide,
    (reduced_motion_reveals_all [sampleHidden]).2.2.2
      (revealImmediately sampleHidden) (by decide)⟩

/-- Claim C10: clicking a focusable nav link while the panel is open runs
the link listener, which closes the panel exactly as a normal close does
(the document-level listener sees the target inside the nav container and
does nothing further). -/
theorem link_click_closes (n : Nat) (s : NavState) (ho : s.isOpen = true) :
    stepEvent n NavEvent.linkClick s = closeMenu s ∧
    (stepEvent n NavEvent.linkClick s).isOpen = false := by
  constructor
  · simp [stepEvent, ho, handleDocumentClick_insideNav]
  · simp [stepEvent, ho, handleDocumentClick_insideNav, closeMenu]

/-- Witness for C10: a link click on the open sample state closes it. -/
theorem link_click_closes_witness :
    sampleOpen.isOpen = true ∧
    stepEvent 3 NavEvent.linkClick sampleOpen = closeMenu sampleOpen :=
  ⟨rfl, (link_click_closes 3 sampleOpen rfl).1⟩

end EliteInstall
